import Mathlib

/-!
Verification of the StudyBoost note-enhancement pipeline
(`src/app/api/enhance-note/route.ts`, handler `POST`).

The route handler is shallowly embedded below: the external collaborators
(identity resolution, the model registry, the completion provider, wall-clock
time) are passed in as explicit arguments, and the handler itself is a pure
function from those inputs to an HTTP status, a response body, and a flag
recording whether the completion provider was invoked.
-/

/-- Structure level of the enhancement settings: basic, detailed or comprehensive
(`src/lib/types` is referenced by the route; the enum values appear literally in
the comparisons at route lines 108 and 110). -/
inductive StructureLevel where
  | basic
  | detailed
  | comprehensive
deriving DecidableEq, Fintype

/-- `EnhancementSettings` record (fields as used by the route handler). -/
structure EnhancementSettings where
  includeDefinitions : Bool
  generateQuestions : Bool
  createSummary : Bool
  addExamples : Bool
  structureLevel : StructureLevel
  autoGenerateFlashcards : Bool
deriving DecidableEq, Fintype

/-- The fixed basic preset forced for unpaid callers (route lines 42–49). -/
def basicPreset : EnhancementSettings :=
  { includeDefinitions := true
    generateQuestions := false
    createSummary := false
    addExamples := false
    structureLevel := .basic
    autoGenerateFlashcards := false }

/-- `isPaid = isStudent || isPro` where `isPro` is pro-or-premium (route lines 35–37). -/
def isPaid (hasStudent hasPro hasPremium : Bool) : Bool :=
  hasStudent || (hasPro || hasPremium)

/-- Settings normalization (route line 42): paid callers pass through, unpaid callers
are collapsed to the basic preset. -/
def normalizeSettings (paid : Bool) (requested : EnhancementSettings) : EnhancementSettings :=
  if paid then requested else basicPreset

/-- Token estimate: `Math.ceil(originalContent.length / 4)` (route line 52),
as ceiling division on naturals. -/
def estimatedTokens (content : String) : Nat :=
  (content.length + 3) / 4

/-- The budget-gate test of route line 60: `estimatedTokens > maxInputTokens`. -/
def budgetExceeded (content : String) (maxInputTokens : Nat) : Bool :=
  decide (estimatedTokens content > maxInputTokens)

theorem estimatedTokens_eq_ceil (c : String) :
    (estimatedTokens c : ℤ) = ⌈(c.length : ℚ) / 4⌉ := by
  unfold estimatedTokens
  set n := c.length with hn
  have hdm := Nat.div_add_mod (n + 3) 4
  have hm : (n + 3) % 4 < 4 := Nat.mod_lt _ (by norm_num)
  set k := (n + 3) / 4 with hk
  have h1 : 4 * k ≤ n + 3 := by omega
  have h2 : n ≤ 4 * k := by omega
  rw [eq_comm, Int.ceil_eq_iff]
  have h1q : (4 : ℚ) * k ≤ n + 3 := by exact_mod_cast h1
  have h2q : (n : ℚ) ≤ 4 * k := by exact_mod_cast h2
  constructor
  · push_cast
    rw [lt_div_iff₀ (by norm_num : (0:ℚ) < 4)]
    linarith
  · push_cast
    rw [div_le_iff₀ (by norm_num : (0:ℚ) < 4)]
    linarith

/-- `enhancementPrompts.structure` (route lines 12–13; the template literal spans
two source lines, so it contains a newline and two spaces of indentation). -/
def enhancementPrompts_structure : String :=
  "Organize this content with clear headings, bullet points, and logical flow. \n  Make it easy to read and understand for students."

/-- `enhancementPrompts.definitions` (route lines 15–16). -/
def enhancementPrompts_definitions : String :=
  "Identify technical terms, jargon, or complex concepts and provide clear, \n  student-friendly definitions for each. Format as: **Term**: Definition"

/-- `enhancementPrompts.questions` (route lines 18–19). -/
def enhancementPrompts_questions : String :=
  "Generate 3-5 study questions from this content that would help students \n  test their understanding. Include both factual and conceptual questions."

/-- `enhancementPrompts.summary` (route lines 21–22). -/
def enhancementPrompts_summary : String :=
  "Create concise summaries of each major section. Highlight key takeaways \n  and main points that students should remember."

/-- `enhancementPrompts.examples` (route lines 24–25). -/
def enhancementPrompts_examples : String :=
  "Add relevant examples, analogies, or real-world applications for abstract \n  concepts mentioned in the content."

/-- The lighter structuring instruction pushed for `structureLevel === "detailed"`
(route line 111). -/
def detailedStructureInstruction : String :=
  "Organize this content with clear headings and bullet points."

/-- The `enhancements` array built by the sequence of pushes at route lines 106–128. -/
def enhancements (s : EnhancementSettings) : List String :=
  (if s.structureLevel = .comprehensive then [enhancementPrompts_structure]
   else if s.structureLevel = .detailed then [detailedStructureInstruction]
   else []) ++
  (if s.includeDefinitions then [enhancementPrompts_definitions] else []) ++
  (if s.generateQuestions then [enhancementPrompts_questions] else []) ++
  (if s.createSummary then [enhancementPrompts_summary] else []) ++
  (if s.addExamples then [enhancementPrompts_examples] else [])

/-- Prompt composition, mirroring the `prompt` accumulation at route lines 100–135,
one `let` per `+=`. -/
def buildPrompt (subject originalContent : String) (s : EnhancementSettings) : String :=
  let p0 := "You are an expert educational assistant helping to enhance student notes. "
  let p1 := p0 ++ ("The content is from a " ++ subject ++ " class. ")
  let p2 := p1 ++ "Please enhance this content to make it more organized, clear, and study-friendly.\n\n"
  let p3 := p2 ++ ("Original content:\n" ++ originalContent ++ "\n\n")
  let p4 := p3 ++ ("Enhancement instructions:\n" ++ String.intercalate "\n\n" (enhancements s) ++ "\n\n")
  let p5 := p4 ++ "Please provide the enhanced content in markdown format. "
  let p6 := p5 ++ "Make it well-structured, easy to read, and study-friendly. "
  let p7 := p6 ++ "If you add definitions, format them as **Term**: Definition. "
  let p8 := p7 ++ "If you add questions, format them as ### Study Questions followed by numbered questions. "
  let p9 := p8 ++ "If you add summaries, format them as ### Summary followed by bullet points."
  p9

/-- Section 1 of the composed prompt: the fixed preamble (route line 100). -/
def promptPreamble : String :=
  "You are an expert educational assistant helping to enhance student notes. "

/-- Section 2: the subject-context sentence (route line 101). -/
def subjectSentence (subject : String) : String :=
  "The content is from a " ++ subject ++ " class. "

/-- Section 3: the fixed framing sentence (route line 102). -/
def framingSentence : String :=
  "Please enhance this content to make it more organized, clear, and study-friendly.\n\n"

/-- Section 4: the literal original-content block (route line 103). -/
def contentBlock (originalContent : String) : String :=
  "Original content:\n" ++ originalContent ++ "\n\n"

/-- Section 5: the enhancement-instruction block (route line 130), the selected
instruction fragments joined by blank lines. -/
def enhancementBlock (s : EnhancementSettings) : String :=
  "Enhancement instructions:\n" ++ String.intercalate "\n\n" (enhancements s) ++ "\n\n"

/-- Section 6: the fixed closing formatting directives (route lines 131–135). -/
def closingDirectives : String :=
  "Please provide the enhanced content in markdown format. " ++
  "Make it well-structured, easy to read, and study-friendly. " ++
  "If you add definitions, format them as **Term**: Definition. " ++
  "If you add questions, format them as ### Study Questions followed by numbered questions. " ++
  "If you add summaries, format them as ### Summary followed by bullet points."

/-- The mock notice line of the placeholder document (route line 74). -/
def mockNotice : String :=
  "This is a mock enhancement since no OpenAI API key is configured. Please add your OpenAI API key to the .env.local file for full functionality."

/-- First fixed study question of the placeholder document (route line 80). -/
def mockQuestion1 : String := "1. What are the main points covered in this content?"

/-- Second fixed study question of the placeholder document (route line 81). -/
def mockQuestion2 : String := "2. How can you apply these concepts in practice?"

/-- Third fixed study question of the placeholder document (route line 82). -/
def mockQuestion3 : String := "3. What questions do you have about this material?"

/-- First fixed placeholder term/definition line (route line 85). -/
def mockTermLine : String := "- **Term**: Definition would appear here with real API"

/-- Second fixed placeholder term/definition line (route line 86). -/
def mockConceptLine : String := "- **Concept**: Explanation would appear here with real API"

/-- The `mockEnhancedContent` template literal (route lines 71–88). In the source
file the closing delimiter of this template literal is missing (the file is cut
off inside it); the embedding takes the literal to consist of the visible text,
ending with the horizontal-rule line. -/
def mockEnhancedContent (subject originalContent : String) : String :=
  "# Enhanced: " ++ subject ++
  "\n\n## Summary\n" ++ mockNotice ++
  "\n\n## Original Content\n" ++ originalContent ++
  "\n\n## Study Questions\n" ++ mockQuestion1 ++ "\n" ++ mockQuestion2 ++ "\n" ++ mockQuestion3 ++
  "\n\n## Key Terms\n" ++ mockTermLine ++ "\n" ++ mockConceptLine ++
  "\n\n---\n"

/-- JavaScript `str.split(/\s+/)` on a character list: split at maximal runs of
whitespace, keeping the (possibly empty) pieces on either side of each run.
`cur` is the current piece reversed, `inRun` records whether the previous
character was part of a whitespace run. -/
def splitWSAux : List Char → List Char → Bool → List (List Char)
  | [], cur, _ => [cur.reverse]
  | c :: cs, cur, inRun =>
    if c.isWhitespace then
      if inRun then splitWSAux cs cur true
      else cur.reverse :: splitWSAux cs [] true
    else splitWSAux cs (c :: cur) false

/-- Word count as computed by `content.split(/\s+/).length` (route lines 94 and 155).
The strings this is applied to contain only ASCII whitespace, where `Char.isWhitespace`
agrees with the regex class. -/
def wordCountOf (s : String) : Nat :=
  (splitWSAux s.data [] false).length

/-- Result of `await auth()` as the route uses it: the optional user id plus the
three `has({ plan: ... })` capability answers (with `?? false` already applied). -/
structure AuthResult where
  userId : Option String
  hasStudentPlan : Bool
  hasProPlan : Bool
  hasPremiumPlan : Bool

/-- The parsed JSON request body (route line 39). -/
structure RequestBody where
  noteId : String
  originalContent : String
  subject : String
  enhancementSettings : EnhancementSettings

/-- The two environment variables the route reads. `none` or an empty string are
falsy in the JavaScript truthiness tests at lines 53 and 69. -/
structure Env where
  openaiApiKey : Option String
  openaiModel : Option String

/-- Model registry entry (the shape `getModelConfig` returns; the registry itself
lives in `src/lib/config`, an external collaborator injected below as a function). -/
structure ModelConfig where
  name : String
  maxInputTokens : Nat
  maxOutputTokens : Nat

/-- Outcome of the one provider call: either a completion whose
`choices[0]?.message?.content` is the given optional string, or a thrown fault
carrying the `code` and `status` fields the catch block inspects. -/
inductive ProviderResult where
  | ok (content : Option String)
  | err (code : Option String) (status : Option Nat)

/-- The response body shape (the `EnhancementResult` of the data model): only the
fields present in the corresponding `NextResponse.json` call are `some`. -/
structure EnhancementResult where
  success : Bool
  error : Option String := none
  details : Option String := none
  enhancedContent : Option String := none
  processingTime : Option Nat := none
  wordCount : Option Nat := none
  estimatedTokens : Option Nat := none
  maxTokens : Option Nat := none
deriving DecidableEq

/-- One full response of the handler: HTTP status, body, and whether
`openai.chat.completions.create` was reached. -/
structure PostOutcome where
  status : Nat
  body : EnhancementResult
  providerInvoked : Bool
deriving DecidableEq

/-- JavaScript truthiness of an optional environment string (`undefined` and `""`
are falsy). -/
def truthy : Option String → Bool
  | none => false
  | some s => !s.isEmpty

/-- `v || d` on an optional environment string (route line 53). -/
def orDefault (v : Option String) (d : String) : String :=
  match v with
  | none => d
  | some s => if s.isEmpty then d else s

/-- The default model name (route line 53). -/
def defaultModel : String := "gpt-3.5-turbo"

/-- The catch-block classification of a thrown provider fault (route lines 163–187):
the specific `rate_limit_exceeded` code first, then a generic 429 status, then the
fixed internal-failure response. -/
def mapProviderError (code : Option String) (status : Option Nat) : Nat × EnhancementResult :=
  if code = some "rate_limit_exceeded" then
    (429, { success := false
            error := some "Rate limit exceeded. Please wait a moment and try again, or reduce the content size."
            details := some "OpenAI rate limit hit. Try with shorter content." })
  else if status = some 429 then
    (400, { success := false
            error := some "Content too large for processing. Please reduce the content size and try again."
            details := some "Token limit exceeded. Try with shorter content." })
  else
    (500, { success := false
            error := some "Failed to enhance note. Please try again." })

/-- The `POST` handler (route lines 28–188) as a pure function of its inputs:
the resolved identity, the parsed body, the environment, the injected model
registry, the provider outcome, and the measured elapsed time of the provider
call. -/
def POST (a : AuthResult) (body : RequestBody) (env : Env)
    (getModelConfig : String → ModelConfig) (provider : ProviderResult)
    (elapsedMs : Nat) : PostOutcome :=
  match a.userId with
  | none =>
    { status := 401
      body := { success := false, error := some "Not authenticated" }
      providerInvoked := false }
  | some _ =>
    let paid := isPaid a.hasStudentPlan a.hasProPlan a.hasPremiumPlan
    let effectiveSettings := normalizeSettings paid body.enhancementSettings
    let est := estimatedTokens body.originalContent
    let model := orDefault env.openaiModel defaultModel
    let modelConfig := getModelConfig model
    let maxTok := modelConfig.maxInputTokens
    if budgetExceeded body.originalContent maxTok then
      { status := 400
        body := { success := false
                  error := some ("Content too large (" ++ toString est ++
                    " estimated tokens). Please reduce content to under " ++
                    toString (maxTok * 4) ++ " characters.")
                  estimatedTokens := some est
                  maxTokens := some (maxTok * 4) }
        providerInvoked := false }
    else if !truthy env.openaiApiKey then
      let mock := mockEnhancedContent body.subject body.originalContent
      { status := 200
        body := { success := true
                  enhancedContent := some mock
                  processingTime := some 1000
                  wordCount := some (wordCountOf mock) }
        providerInvoked := false }
    else
      let _prompt := buildPrompt body.subject body.originalContent effectiveSettings
      match provider with
      | .ok content =>
        let enhancedContent := content.getD ""
        { status := 200
          body := { success := true
                    enhancedContent := some enhancedContent
                    processingTime := some elapsedMs
                    wordCount := some (wordCountOf enhancedContent) }
          providerInvoked := true }
      | .err code status =>
        let mapped := mapProviderError code status
        { status := mapped.1, body := mapped.2, providerInvoked := true }

/-- `needle` occurs contiguously inside `hay`. -/
def containsStr (hay needle : String) : Prop :=
  ∃ x y : String, hay = x ++ needle ++ y

theorem containsStr_of_parts (x y z : String) : containsStr (x ++ y ++ z) y :=
  ⟨x, z, rfl⟩

theorem splitWSAux_length_pos (l : List Char) :
    ∀ cur inRun, 1 ≤ (splitWSAux l cur inRun).length := by
  induction l with
  | nil => intro cur inRun; simp [splitWSAux]
  | cons c cs ih =>
    intro cur inRun
    simp only [splitWSAux]
    split
    · split
      · exact ih _ _
      · simp only [List.length_cons]
        omega
    · exact ih _ _

theorem wordCountOf_pos (s : String) : 1 ≤ wordCountOf s :=
  splitWSAux_length_pos s.data [] false

/-- The all-disabled settings value: every boolean false, `structureLevel` basic. -/
def allOffBasicSettings : EnhancementSettings :=
  { includeDefinitions := false
    generateQuestions := false
    createSummary := false
    addExamples := false
    structureLevel := .basic
    autoGenerateFlashcards := false }

/-- C1: an unpaid caller (neither student nor pro/premium) always gets exactly the
fixed basic preset, whatever settings were requested; for a paid caller the
requested settings pass through unchanged. -/
theorem settings_normalization_correct :
    (∀ (st pro prem : Bool) (req : EnhancementSettings),
        st = false → pro = false → prem = false →
        normalizeSettings (isPaid st pro prem) req = basicPreset) ∧
    (∀ (st pro prem : Bool) (req : EnhancementSettings),
        isPaid st pro prem = true →
        normalizeSettings (isPaid st pro prem) req = req) := by
  constructor
  · rintro st pro prem req rfl rfl rfl
    rfl
  · intro st pro prem req h
    simp [normalizeSettings, h]

/-- Witness for C1 at concrete inputs: an unpaid caller requesting everything is
collapsed to the preset; a student-plan caller keeps the requested value. -/
theorem settings_normalization_correct_witness :
    normalizeSettings (isPaid false false false)
      { includeDefinitions := false, generateQuestions := true, createSummary := true,
        addExamples := true, structureLevel := .comprehensive,
        autoGenerateFlashcards := true } = basicPreset ∧
    normalizeSettings (isPaid true false false) allOffBasicSettings = allOffBasicSettings :=
  ⟨settings_normalization_correct.1 false false false _ rfl rfl rfl,
   settings_normalization_correct.2 true false false allOffBasicSettings rfl⟩

/-- C2: the token estimate is the ceiling of the character length divided by 4;
lengths 0, 1, 4, 5 give estimates 0, 1, 1, 2; a length-0 content never trips the
budget gate. -/
theorem token_estimate_is_ceil :
    (∀ c : String, (estimatedTokens c : ℤ) = ⌈(c.length : ℚ) / 4⌉) ∧
    (∀ c : String, c.length = 0 → estimatedTokens c = 0) ∧
    (∀ c : String, c.length = 1 → estimatedTokens c = 1) ∧
    (∀ c : String, c.length = 4 → estimatedTokens c = 1) ∧
    (∀ c : String, c.length = 5 → estimatedTokens c = 2) ∧
    (∀ (c : String) (maxInputTokens : Nat),
        c.length = 0 → budgetExceeded c maxInputTokens = false) := by
  refine ⟨estimatedTokens_eq_ceil, ?_, ?_, ?_, ?_, ?_⟩ <;>
    first
    | (intro c h
       simp [estimatedTokens, h])
    | (intro c maxInputTokens h
       simp [budgetExceeded, estimatedTokens, h])

/-- Witness for C2 at concrete contents of lengths 0, 1, 4 and 5. -/
theorem token_estimate_is_ceil_witness :
    estimatedTokens "" = 0 ∧ estimatedTokens "a" = 1 ∧ estimatedTokens "abcd" = 1 ∧
    estimatedTokens "abcde" = 2 ∧ budgetExceeded "" 0 = false :=
  ⟨token_estimate_is_ceil.2.1 "" rfl,
   token_estimate_is_ceil.2.2.1 "a" rfl,
   token_estimate_is_ceil.2.2.2.1 "abcd" rfl,
   token_estimate_is_ceil.2.2.2.2.1 "abcde" rfl,
   token_estimate_is_ceil.2.2.2.2.2 "" 0 rfl⟩

/-- C7: when no user identity resolves, the handler returns 401 with the fixed
body, the provider is not invoked, and the outcome is the same constant for every
request body, environment, registry and provider outcome — i.e. it is produced
before any of them is consulted. -/
theorem unauthenticated_rejected_first (a b c : Bool) (body : RequestBody) (env : Env)
    (cfg : String → ModelConfig) (provider : ProviderResult) (t : Nat) :
    POST ⟨none, a, b, c⟩ body env cfg provider t =
      { status := 401
        body := { success := false, error := some "Not authenticated" }
        providerInvoked := false } := rfl

/-- C3: when the estimate exceeds the input ceiling of the model, the handler returns
the 400 failure carrying `estimatedTokens` and `maxTokens = maxInputTokens * 4`,
and the provider is never invoked. -/
theorem budget_gate_short_circuits (uid : String) (a b c : Bool) (body : RequestBody)
    (env : Env) (cfg : String → ModelConfig) (provider : ProviderResult) (t : Nat)
    (h : estimatedTokens body.originalContent >
      (cfg (orDefault env.openaiModel defaultModel)).maxInputTokens) :
    POST ⟨some uid, a, b, c⟩ body env cfg provider t =
      { status := 400
        body := { success := false
                  error := some ("Content too large (" ++
                    toString (estimatedTokens body.originalContent) ++
                    " estimated tokens). Please reduce content to under " ++
                    toString ((cfg (orDefault env.openaiModel defaultModel)).maxInputTokens * 4) ++
                    " characters.")
                  estimatedTokens := some (estimatedTokens body.originalContent)
                  maxTokens :=
                    some ((cfg (orDefault env.openaiModel defaultModel)).maxInputTokens * 4) }
        providerInvoked := false } := by
  simp [POST, budgetExceeded, h]

/-- Witness for C3: a 5-character content (2 estimated tokens) against a model
with a 1-token input ceiling is rejected with status 400 and the provider flag
stays false. -/
theorem budget_gate_short_circuits_witness :
    estimatedTokens "aaaaa" >
      ((fun _ : String => ModelConfig.mk "m" 1 1) (orDefault none defaultModel)).maxInputTokens ∧
    POST ⟨some "u", false, false, false⟩ ⟨"n", "aaaaa", "s", basicPreset⟩ ⟨none, none⟩
        (fun _ => ModelConfig.mk "m" 1 1) (.ok none) 0 =
      { status := 400
        body := { success := false
                  error := some "Content too large (2 estimated tokens). Please reduce content to under 4 characters."
                  estimatedTokens := some 2
                  maxTokens := some 4 }
        providerInvoked := false } := by
  refine ⟨by decide, ?_⟩
  rw [budget_gate_short_circuits "u" false false false ⟨"n", "aaaaa", "s", basicPreset⟩
    ⟨none, none⟩ (fun _ => ModelConfig.mk "m" 1 1) (.ok none) 0 (by decide)]
  decide

/-- C4: with a resolved identity, a passing budget gate and no configured API key,
the handler returns the deterministic placeholder outcome — success, status 200,
`processingTime` exactly 1000, word count from whitespace-splitting the placeholder —
without invoking the provider, and the placeholder document contains the
subject-derived heading, the mock notice, the verbatim original content, the three
fixed study questions and the two fixed term/definition lines. -/
theorem placeholder_path_correct (uid : String) (a b c : Bool) (body : RequestBody)
    (env : Env) (cfg : String → ModelConfig) (provider : ProviderResult) (t : Nat)
    (hgate : budgetExceeded body.originalContent
      (cfg (orDefault env.openaiModel defaultModel)).maxInputTokens = false)
    (hkey : truthy env.openaiApiKey = false) :
    POST ⟨some uid, a, b, c⟩ body env cfg provider t =
      { status := 200
        body := { success := true
                  enhancedContent := some (mockEnhancedContent body.subject body.originalContent)
                  processingTime := some 1000
                  wordCount := some (wordCountOf (mockEnhancedContent body.subject body.originalContent)) }
        providerInvoked := false } ∧
    containsStr (mockEnhancedContent body.subject body.originalContent)
      ("# Enhanced: " ++ body.subject) ∧
    containsStr (mockEnhancedContent body.subject body.originalContent) mockNotice ∧
    containsStr (mockEnhancedContent body.subject body.originalContent) body.originalContent ∧
    containsStr (mockEnhancedContent body.subject body.originalContent) mockQuestion1 ∧
    containsStr (mockEnhancedContent body.subject body.originalContent) mockQuestion2 ∧
    containsStr (mockEnhancedContent body.subject body.originalContent) mockQuestion3 ∧
    containsStr (mockEnhancedContent body.subject body.originalContent) mockTermLine ∧
    containsStr (mockEnhancedContent body.subject body.originalContent) mockConceptLine := by
  refine ⟨by simp [POST, hgate, hkey], ?_, ?_, ?_, ?_, ?_, ?_, ?_, ?_⟩
  · exact ⟨"", "\n\n## Summary\n" ++ mockNotice ++ "\n\n## Original Content\n" ++
      body.originalContent ++ "\n\n## Study Questions\n" ++ mockQuestion1 ++ "\n" ++
      mockQuestion2 ++ "\n" ++ mockQuestion3 ++ "\n\n## Key Terms\n" ++ mockTermLine ++
      "\n" ++ mockConceptLine ++ "\n\n---\n",
      by simp [mockEnhancedContent, String.append_assoc, String.empty_append]⟩
  · exact ⟨"# Enhanced: " ++ body.subject ++ "\n\n## Summary\n",
      "\n\n## Original Content\n" ++ body.originalContent ++ "\n\n## Study Questions\n" ++
      mockQuestion1 ++ "\n" ++ mockQuestion2 ++ "\n" ++ mockQuestion3 ++
      "\n\n## Key Terms\n" ++ mockTermLine ++ "\n" ++ mockConceptLine ++ "\n\n---\n",
      by simp [mockEnhancedContent, String.append_assoc]⟩
  · exact ⟨"# Enhanced: " ++ body.subject ++ "\n\n## Summary\n" ++ mockNotice ++
      "\n\n## Original Content\n",
      "\n\n## Study Questions\n" ++ mockQuestion1 ++ "\n" ++ mockQuestion2 ++ "\n" ++
      mockQuestion3 ++ "\n\n## Key Terms\n" ++ mockTermLine ++ "\n" ++ mockConceptLine ++
      "\n\n---\n",
      by simp [mockEnhancedContent, String.append_assoc]⟩
  · exact ⟨"# Enhanced: " ++ body.subject ++ "\n\n## Summary\n" ++ mockNotice ++
      "\n\n## Original Content\n" ++ body.originalContent ++ "\n\n## Study Questions\n",
      "\n" ++ mockQuestion2 ++ "\n" ++ mockQuestion3 ++ "\n\n## Key Terms\n" ++
      mockTermLine ++ "\n" ++ mockConceptLine ++ "\n\n---\n",
      by simp [mockEnhancedContent, String.append_assoc]⟩
  · exact ⟨"# Enhanced: " ++ body.subject ++ "\n\n## Summary\n" ++ mockNotice ++
      "\n\n## Original Content\n" ++ body.originalContent ++ "\n\n## Study Questions\n" ++
      mockQuestion1 ++ "\n",
      "\n" ++ mockQuestion3 ++ "\n\n## Key Terms\n" ++ mockTermLine ++ "\n" ++
      mockConceptLine ++ "\n\n---\n",
      by simp [mockEnhancedContent, String.append_assoc]⟩
  · exact ⟨"# Enhanced: " ++ body.subject ++ "\n\n## Summary\n" ++ mockNotice ++
      "\n\n## Original Content\n" ++ body.originalContent ++ "\n\n## Study Questions\n" ++
      mockQuestion1 ++ "\n" ++ mockQuestion2 ++ "\n",
      "\n\n## Key Terms\n" ++ mockTermLine ++ "\n" ++ mockConceptLine ++ "\n\n---\n",
      by simp [mockEnhancedContent, String.append_assoc]⟩
  · exact ⟨"# Enhanced: " ++ body.subject ++ "\n\n## Summary\n" ++ mockNotice ++
      "\n\n## Original Content\n" ++ body.originalContent ++ "\n\n## Study Questions\n" ++
      mockQuestion1 ++ "\n" ++ mockQuestion2 ++ "\n" ++ mockQuestion3 ++ "\n\n## Key Terms\n",
      "\n" ++ mockConceptLine ++ "\n\n---\n",
      by simp [mockEnhancedContent, String.append_assoc]⟩
  · exact ⟨"# Enhanced: " ++ body.subject ++ "\n\n## Summary\n" ++ mockNotice ++
      "\n\n## Original Content\n" ++ body.originalContent ++ "\n\n## Study Questions\n" ++
      mockQuestion1 ++ "\n" ++ mockQuestion2 ++ "\n" ++ mockQuestion3 ++ "\n\n## Key Terms\n" ++
      mockTermLine ++ "\n",
      "\n\n---\n",
      by simp [mockEnhancedContent, String.append_assoc]⟩

/-- Witness for C4: a free-tier caller with a 2-character content, a generous model
ceiling and no API key gets the placeholder outcome. -/
theorem placeholder_path_correct_witness :
    budgetExceeded "ab" 100 = false ∧ truthy none = false ∧
    POST ⟨some "u", false, false, false⟩ ⟨"n", "ab", "math", basicPreset⟩ ⟨none, none⟩
        (fun _ => ModelConfig.mk "m" 100 100) (.ok none) 7 =
      { status := 200
        body := { success := true
                  enhancedContent := some (mockEnhancedContent "math" "ab")
                  processingTime := some 1000
                  wordCount := some (wordCountOf (mockEnhancedContent "math" "ab")) }
        providerInvoked := false } :=
  ⟨by decide, rfl,
   (placeholder_path_correct "u" false false false ⟨"n", "ab", "math", basicPreset⟩
     ⟨none, none⟩ (fun _ => ModelConfig.mk "m" 100 100) (.ok none) 7 (by decide) rfl).1⟩

/-- C5: provider faults are classified in priority order — the specific
`rate_limit_exceeded` code gives the 429 rate-limited response; otherwise a
generic 429 status gives the 400 content-too-large-style response; any other
fault gives the fixed 500 response whose body carries only the generic message. -/
theorem provider_fault_classification (uid : String) (a b c : Bool) (body : RequestBody)
    (env : Env) (cfg : String → ModelConfig) (code : Option String) (status : Option Nat)
    (t : Nat)
    (hgate : budgetExceeded body.originalContent
      (cfg (orDefault env.openaiModel defaultModel)).maxInputTokens = false)
    (hkey : truthy env.openaiApiKey = true) :
    (code = some "rate_limit_exceeded" →
      POST ⟨some uid, a, b, c⟩ body env cfg (.err code status) t =
        { status := 429
          body := { success := false
                    error := some "Rate limit exceeded. Please wait a moment and try again, or reduce the content size."
                    details := some "OpenAI rate limit hit. Try with shorter content." }
          providerInvoked := true }) ∧
    (code ≠ some "rate_limit_exceeded" → status = some 429 →
      POST ⟨some uid, a, b, c⟩ body env cfg (.err code status) t =
        { status := 400
          body := { success := false
                    error := some "Content too large for processing. Please reduce the content size and try again."
                    details := some "Token limit exceeded. Try with shorter content." }
          providerInvoked := true }) ∧
    (code ≠ some "rate_limit_exceeded" → status ≠ some 429 →
      POST ⟨some uid, a, b, c⟩ body env cfg (.err code status) t =
        { status := 500
          body := { success := false
                    error := some "Failed to enhance note. Please try again." }
          providerInvoked := true }) := by
  refine ⟨?_, ?_, ?_⟩
  · intro h
    simp [POST, hgate, hkey, mapProviderError, h]
  · intro h1 h2
    simp [POST, hgate, hkey, mapProviderError, h1, h2]
  · intro h1 h2
    simp [POST, hgate, hkey, mapProviderError, h1, h2]

/-- Witness for C5: the three fault classes at concrete inputs. -/
theorem provider_fault_classification_witness :
    budgetExceeded "" 10 = false ∧ truthy (some "k") = true ∧
    POST ⟨some "u", false, false, false⟩ ⟨"n", "", "s", basicPreset⟩ ⟨some "k", none⟩
        (fun _ => ModelConfig.mk "m" 10 10) (.err (some "rate_limit_exceeded") (some 429)) 5 =
      { status := 429
        body := { success := false
                  error := some "Rate limit exceeded. Please wait a moment and try again, or reduce the content size."
                  details := some "OpenAI rate limit hit. Try with shorter content." }
        providerInvoked := true } ∧
    POST ⟨some "u", false, false, false⟩ ⟨"n", "", "s", basicPreset⟩ ⟨some "k", none⟩
        (fun _ => ModelConfig.mk "m" 10 10) (.err none (some 429)) 5 =
      { status := 400
        body := { success := false
                  error := some "Content too large for processing. Please reduce the content size and try again."
                  details := some "Token limit exceeded. Try with shorter content." }
        providerInvoked := true } ∧
    POST ⟨some "u", false, false, false⟩ ⟨"n", "", "s", basicPreset⟩ ⟨some "k", none⟩
        (fun _ => ModelConfig.mk "m" 10 10) (.err none none) 5 =
      { status := 500
        body := { success := false
                  error := some "Failed to enhance note. Please try again." }
        providerInvoked := true } :=
  ⟨by decide, rfl,
   (provider_fault_classification "u" false false false ⟨"n", "", "s", basicPreset⟩
     ⟨some "k", none⟩ (fun _ => ModelConfig.mk "m" 10 10) (some "rate_limit_exceeded")
     (some 429) 5 (by decide) rfl).1 rfl,
   (provider_fault_classification "u" false false false ⟨"n", "", "s", basicPreset⟩
     ⟨some "k", none⟩ (fun _ => ModelConfig.mk "m" 10 10) none (some 429) 5
     (by decide) rfl).2.1 (by decide) rfl,
   (provider_fault_classification "u" false false false ⟨"n", "", "s", basicPreset⟩
     ⟨some "k", none⟩ (fun _ => ModelConfig.mk "m" 10 10) none none 5
     (by decide) rfl).2.2 (by decide) (by decide)⟩

/-- C6: the comprehensive structuring instruction is in the enhancement block
exactly when `structureLevel` is comprehensive, the lighter detailed instruction
exactly when it is detailed, never both, and `basic` contributes neither. -/
theorem structure_instructions_exclusive (s : EnhancementSettings) :
    (enhancementPrompts_structure ∈ enhancements s ↔ s.structureLevel = .comprehensive) ∧
    (detailedStructureInstruction ∈ enhancements s ↔ s.structureLevel = .detailed) ∧
    ¬(enhancementPrompts_structure ∈ enhancements s ∧
      detailedStructureInstruction ∈ enhancements s) ∧
    (s.structureLevel = .basic →
      enhancementPrompts_structure ∉ enhancements s ∧
      detailedStructureInstruction ∉ enhancements s) := by
  revert s
  decide

/-- Witness for C6: with basic structure level, neither structuring instruction is
in the block. -/
theorem structure_instructions_exclusive_witness :
    enhancementPrompts_structure ∉ enhancements basicPreset ∧
    detailedStructureInstruction ∉ enhancements basicPreset :=
  (structure_instructions_exclusive basicPreset).2.2.2 rfl

/-- C8: prompt composition is a deterministic function of
`(subject, originalContent, effectiveSettings)`, and the composed text is exactly
the six sections in the fixed order preamble, subject sentence, framing sentence,
original-content block, enhancement-instruction block, closing directives. -/
theorem prompt_composition_deterministic :
    (∀ (subject originalContent : String) (s : EnhancementSettings),
      buildPrompt subject originalContent s =
        promptPreamble ++ subjectSentence subject ++ framingSentence ++
        contentBlock originalContent ++ enhancementBlock s ++ closingDirectives) ∧
    (∀ (subj₁ c₁ : String) (s₁ : EnhancementSettings)
       (subj₂ c₂ : String) (s₂ : EnhancementSettings),
      subj₁ = subj₂ → c₁ = c₂ → s₁ = s₂ →
      buildPrompt subj₁ c₁ s₁ = buildPrompt subj₂ c₂ s₂) := by
  constructor
  · intro subject originalContent s
    simp [buildPrompt, promptPreamble, subjectSentence, framingSentence, contentBlock,
      enhancementBlock, closingDirectives, String.append_assoc]
  · rintro subj₁ c₁ s₁ _ _ _ rfl rfl rfl
    rfl

/-- Witness for C8: two evaluations at equal concrete inputs coincide. -/
theorem prompt_composition_deterministic_witness :
    buildPrompt "math" "ab" basicPreset = buildPrompt "math" "ab" basicPreset :=
  prompt_composition_deterministic.2 "math" "ab" basicPreset "math" "ab" basicPreset
    rfl rfl rfl

/-- C9: the composer is total — every input yields a prompt — and with every
boolean flag false and basic structure level the enhancement-instruction block is
empty: no instruction is selected and the block collapses to its fixed framing. -/
theorem composer_total_and_basic_empty :
    (∀ (subject originalContent : String) (s : EnhancementSettings),
      ∃ p : String, buildPrompt subject originalContent s = p) ∧
    enhancements allOffBasicSettings = [] ∧
    enhancementBlock allOffBasicSettings = "Enhancement instructions:\n\n\n" ∧
    (∀ subject originalContent : String,
      buildPrompt subject originalContent allOffBasicSettings =
        promptPreamble ++ subjectSentence subject ++ framingSentence ++
        contentBlock originalContent ++ "Enhancement instructions:\n\n\n" ++
        closingDirectives) := by
  refine ⟨fun subject originalContent s => ⟨_, rfl⟩, by decide, by decide, ?_⟩
  intro subject originalContent
  simp [buildPrompt, promptPreamble, subjectSentence, framingSentence, contentBlock,
    closingDirectives, enhancements, allOffBasicSettings, String.append_assoc,
    String.intercalate]

theorem mapProviderError_not_success (code : Option String) (status : Option Nat) :
    (mapProviderError code status).2.success = false := by
  unfold mapProviderError
  split_ifs <;> rfl

/-- C10: every success response carries a word count of at least one, because
splitting any string (including the empty string) on runs of whitespace yields at
least one piece. -/
theorem success_wordCount_positive (a : AuthResult) (body : RequestBody) (env : Env)
    (cfg : String → ModelConfig) (provider : ProviderResult) (t : Nat)
    (h : (POST a body env cfg provider t).body.success = true) :
    ∃ n, (POST a body env cfg provider t).body.wordCount = some n ∧ 1 ≤ n := by
  rcases a with ⟨uid, x, y, z⟩
  cases uid with
  | none => simp [POST] at h
  | some u =>
    by_cases hb : budgetExceeded body.originalContent
        (cfg (orDefault env.openaiModel defaultModel)).maxInputTokens = true
    · simp [POST, hb] at h
    · rw [Bool.not_eq_true] at hb
      by_cases hk : truthy env.openaiApiKey = true
      · cases provider with
        | ok content =>
          refine ⟨wordCountOf (content.getD ""), ?_, wordCountOf_pos _⟩
          simp [POST, hb, hk]
        | err code status =>
          exfalso
          simp [POST, hb, hk, mapProviderError_not_success] at h
      · rw [Bool.not_eq_true] at hk
        refine ⟨wordCountOf (mockEnhancedContent body.subject body.originalContent),
          ?_, wordCountOf_pos _⟩
        simp [POST, hb, hk]

/-- Witness for C10: a success response from a provider completion with no
content — the enhanced content is the empty string and the word count is 1. -/
theorem success_wordCount_positive_witness :
    (POST ⟨some "u", false, false, false⟩ ⟨"n", "", "s", basicPreset⟩ ⟨some "k", none⟩
      (fun _ => ModelConfig.mk "m" 10 10) (.ok none) 3).body.success = true ∧
    ∃ n, (POST ⟨some "u", false, false, false⟩ ⟨"n", "", "s", basicPreset⟩ ⟨some "k", none⟩
      (fun _ => ModelConfig.mk "m" 10 10) (.ok none) 3).body.wordCount = some n ∧ 1 ≤ n :=
  ⟨by decide,
   success_wordCount_positive ⟨some "u", false, false, false⟩ ⟨"n", "", "s", basicPreset⟩
     ⟨some "k", none⟩ (fun _ => ModelConfig.mk "m" 10 10) (.ok none) 3 (by decide)⟩
